import Mathlib

/-!
Verification of the GeoJSON layer binding (src/src/geojson-layer.ts).

The component synchronizes one GeoJSON source and five derived layers
(symbol, line, fill, fill-extrusion, circle) with an external map API.
We embed its lifecycle methods as pure functions from a binding state and
an external map state to a new state plus the list of imperative calls
issued against the external map, in the order the code issues them.

Modelling conventions:
- JavaScript objects holding paint/layout properties are association
  lists over string keys in insertion order (JS object key order).
- Function and payload references are modelled as `Nat` identity tokens;
  reference (in)equality `!==` is token (in)equality.
- `deep-equal` on property objects is extensional key/value equality;
  on filters (arbitrary JSON arrays) it is structural equality.
- Absent JS values (`undefined`) are `Option.none`.
-/

/-- Property keys of paint/layout objects. -/
abbrev Key := String

/-- Property values of paint/layout objects (opaque JSON values). -/
abbrev Val := String

/-- A JS object of style properties: keys in insertion order. -/
abbrev Obj := List (Key × Val)

/-- A filter expression (opaque JSON array). -/
abbrev FilterExpr := List Val

/-- Key lookup in a JS object (first binding wins; JS keys are unique). -/
def olookup : Obj → Key → Option Val
  | [], _ => none
  | kv :: rest, k => if kv.1 = k then some kv.2 else olookup rest k

/-- One-sided check: every key/value pair of `a` is present in `b`. -/
def objSub (a b : Obj) : Bool :=
  a.all (fun kv => decide (olookup b kv.1 = some kv.2))

/-- deep-equal on two JS property objects: same key/value mapping. -/
def isEqualObj (a b : Obj) : Bool :=
  objSub a b && objSub b a

/-- deep-equal lifted to possibly-undefined property objects. -/
def isEqualOptObj : Option Obj → Option Obj → Bool
  | none, none => true
  | some a, some b => isEqualObj a b
  | _, _ => false

/-- Modelled from the spec: the shallow key-diff utility `util/diff`
(imported by the component but absent from src/). Per the spec, it
computes a mapping containing every key whose value changed between old
and new (keys added or changed); callers pass empty objects for absent
arguments. Keys of `next` are kept in their object order. -/
def diff (prev : Obj) : Obj → Obj
  | [] => []
  | kv :: rest =>
      if olookup prev kv.1 = some kv.2 then diff prev rest
      else kv :: diff prev rest

/-- The five layer types created by the component, in creation order. -/
inductive LayerType where
  | symbol
  | line
  | fill
  | fillExtrusion
  | circle
deriving DecidableEq

/-- The `types` array of the component. -/
def LayerType.name : LayerType → String
  | .symbol => "symbol"
  | .line => "line"
  | .fill => "fill"
  | .fillExtrusion => "fill-extrusion"
  | .circle => "circle"

/-- The six mouse event kinds of `eventToHandler`, in object-key order. -/
inductive MouseEvt where
  | mousemove
  | mouseenter
  | mouseleave
  | mousedown
  | mouseup
  | click
deriving DecidableEq

/-- The event kinds in the order the code iterates them. -/
def events : List MouseEvt :=
  [.mousemove, .mouseenter, .mouseleave, .mousedown, .mouseup, .click]

/-- The generic layer options prop (`layerOptions`), restricted to the
fields the component's behaviour depends on: the filter, and the
paint/layout fields that the spread `...layerOptions` would override. -/
structure LayerOptions where
  filter : Option FilterExpr
  paint : Option Obj
  layout : Option Obj
deriving DecidableEq

/-- The GeoJSON source descriptor: source options plus the payload,
the payload being a reference token. -/
structure Source where
  options : Option Obj
  data : Nat
deriving DecidableEq

/-- The component props. Paint, layout and the six per-event handler
slots are indexed by layer type; handlers are reference tokens. -/
structure Props where
  id : Option String
  data : Nat
  layerOptions : Option LayerOptions
  sourceOptions : Option Obj
  before : Option String
  paint : LayerType → Option Obj
  layout : LayerType → Option Obj
  handler : LayerType → MouseEvt → Option Nat

/-- The layer descriptor passed to `addLayer`. -/
structure LayerDesc where
  id : String
  source : String
  type : LayerType
  paint : Obj
  layout : Obj
  filter : Option FilterExpr
deriving DecidableEq

/-- An imperative call issued against the external map (plus the
framework's re-render request), in the order the code issues them. -/
inductive MapCall where
  | addSource (i : String) (src : Source)
  | removeSource (i : String)
  | addLayer (d : LayerDesc) (before : Option String)
  | removeLayer (i : String)
  | setData (i : String) (d : Nat)
  | setFilter (i : String) (f : FilterExpr)
  | setPaintProperty (i : String) (k : Key) (v : Val)
  | setLayoutProperty (i : String) (k : Key) (v : Val)
  | on (e : MouseEvt) (i : String) (h : Nat)
  | off (e : MouseEvt) (i : String) (h : Nat)
  | moveLayer (i : String) (before : Option String)
  | onStyled
  | offStyled
  | forceUpdate
deriving DecidableEq

/-- Observable registration state of the external map: which source ids
and layer ids exist, and whether `getStyle()` returns a style. -/
structure MapState where
  sources : List String
  layers : List String
  styleLoaded : Bool
deriving DecidableEq

/-- The component instance state: its id, retained source descriptor,
and the `layerIds` array. -/
structure LayerState where
  id : String
  source : Source
  layerIds : List String
deriving DecidableEq

/-- Remove every occurrence of an id from a registration list. -/
def eraseAll (l : List String) (i : String) : List String :=
  l.filter (fun x => x != i)

/-- Effect of a call on the external map's registration state; calls
that do not add or remove a source or layer leave it unchanged. -/
def applyCall (m : MapState) : MapCall → MapState
  | .addSource i _ => { m with sources := m.sources ++ [i] }
  | .removeSource i => { m with sources := eraseAll m.sources i }
  | .addLayer d _ => { m with layers := m.layers ++ [d.id] }
  | .removeLayer i => { m with layers := eraseAll m.layers i }
  | _ => m

/-- Whether a call adds or removes a source or layer registration. -/
def isRegCall : MapCall → Bool
  | .addSource _ _ | .removeSource _ | .addLayer _ _ | .removeLayer _ => true
  | _ => false

/-- `buildLayerId`: derived layer id for a layer type. -/
def buildLayerId (i : String) (t : LayerType) : String :=
  i ++ "-" ++ t.name

/-- The five derived layer ids in creation order. -/
def fiveIds (i : String) : List String :=
  [buildLayerId i .symbol, buildLayerId i .line, buildLayerId i .fill,
   buildLayerId i .fillExtrusion, buildLayerId i .circle]

/-- Iterate a per-event call producer over the six event kinds in order. -/
def forEvents (f : MouseEvt → List MapCall) : List MapCall :=
  events.foldr (fun e acc => f e ++ acc) []

/-- Merge of the layer descriptor with `...layerOptions`: the spread
comes last in the object literal, so fields present on `layerOptions`
override the descriptor's. -/
def mergeLayerOptions (base : LayerDesc) : Option LayerOptions → LayerDesc
  | none => base
  | some o =>
      { base with
        paint := o.paint.getD base.paint,
        layout := o.layout.getD base.layout,
        filter := o.filter }

/-- The descriptor `createLayer` passes to `addLayer`: paint from the
per-type paint prop (default empty), layout from the per-type layout
prop (default visibility derived from paint emptiness), merged with the
generic layer options. -/
def createLayerDesc (i : String) (p : Props) (t : LayerType) : LayerDesc :=
  let paint := (p.paint t).getD []
  let visibility := if paint.isEmpty then "none" else "visible"
  let layout := (p.layout t).getD [("visibility", visibility)]
  mergeLayerOptions
    { id := buildLayerId i t, source := i, type := t,
      paint := paint, layout := layout, filter := none }
    p.layerOptions

/-- `mapLayerMouseHandlers`: subscribe one listener per declared handler. -/
def mouseOns (p : Props) (t : LayerType) (lid : String) : List MapCall :=
  forEvents (fun e => (p.handler t e).toList.map (fun h => .on e lid h))

/-- `createLayer`: record the derived id on `layerIds`, add the layer,
then subscribe its mouse handlers. -/
def createLayer (m : MapState) (st : LayerState) (p : Props) (t : LayerType) :
    MapState × LayerState × List MapCall :=
  let lid := buildLayerId st.id t
  let st' := { st with layerIds := st.layerIds ++ [lid] }
  let desc := createLayerDesc st.id p t
  let m' := { m with layers := m.layers ++ [desc.id] }
  (m', st', .addLayer desc p.before :: mouseOns p t lid)

/-- `initialize`: add the source, then create the five layers in order. -/
def initializeBinding (m : MapState) (st : LayerState) (p : Props) :
    MapState × LayerState × List MapCall :=
  let m0 := { m with sources := m.sources ++ [st.id] }
  let r1 := createLayer m0 st p .symbol
  let r2 := createLayer r1.1 r1.2.1 p .line
  let r3 := createLayer r2.1 r2.2.1 p .fill
  let r4 := createLayer r3.1 r3.2.1 p .fillExtrusion
  let r5 := createLayer r4.1 r4.2.1 p .circle
  (r5.1, r5.2.1,
    .addSource st.id st.source ::
      (r1.2.2 ++ r2.2.2 ++ r3.2.2 ++ r4.2.2 ++ r5.2.2))

/-- Per-type unsubscription of declared mouse handlers (the loop body of
`unbind`'s `types.forEach`). -/
def typeOffs (st : LayerState) (p : Props) (t : LayerType) : List MapCall :=
  forEvents (fun e =>
    (p.handler t e).toList.map (fun h => .off e (buildLayerId st.id t) h))

/-- All mouse handler unsubscriptions, types in array order. -/
def mouseOffs (st : LayerState) (p : Props) : List MapCall :=
  typeOffs st p .symbol ++ typeOffs st p .line ++ typeOffs st p .fill ++
    typeOffs st p .fillExtrusion ++ typeOffs st p .circle

/-- `layerIds.forEach`: remove each recorded layer id that still exists
on the map (existence is re-checked against the evolving map state, so a
duplicate recorded id is removed only once). -/
def removeLayers : MapState → List String → MapState × List MapCall
  | m, [] => (m, [])
  | m, lid :: rest =>
      if lid ∈ m.layers then
        let m' := { m with layers := eraseAll m.layers lid }
        let r := removeLayers m' rest
        (r.1, .removeLayer lid :: r.2)
      else removeLayers m rest

/-- `unbind`: remove the source if it still exists, then unsubscribe
every declared mouse handler for every type, then remove every recorded
layer id that still exists. -/
def unbind (m : MapState) (st : LayerState) (p : Props) :
    MapState × List MapCall :=
  let srcPart : MapState × List MapCall :=
    if st.id ∈ m.sources then
      ({ m with sources := eraseAll m.sources st.id }, [.removeSource st.id])
    else (m, [])
  let lr := removeLayers srcPart.1 st.layerIds
  (lr.1, srcPart.2 ++ mouseOffs st p ++ lr.2)

/-- `componentWillMount`: initialize, then subscribe the styledata
listener. -/
def componentWillMount (m : MapState) (st : LayerState) (p : Props) :
    MapState × LayerState × List MapCall :=
  let r := initializeBinding m st p
  (r.1, r.2.1, r.2.2 ++ [.onStyled])

/-- `onStyleDataChange`: if the source is still present, do nothing;
otherwise unbind, re-initialize, and request a re-render. -/
def onStyleDataChange (m : MapState) (st : LayerState) (p : Props) :
    MapState × LayerState × List MapCall :=
  if st.id ∈ m.sources then (m, st, [])
  else
    let u := unbind m st p
    let r := initializeBinding u.1 st p
    (r.1, r.2.1, u.2 ++ r.2.2 ++ [.forceUpdate])

/-- `componentWillUnmount`: no-op when the map is gone or its style is
unloaded; otherwise remove the styledata listener, then unbind. -/
def componentWillUnmount (mo : Option MapState) (st : LayerState) (p : Props) :
    Option MapState × List MapCall :=
  match mo with
  | none => (none, [])
  | some m =>
      if m.styleLoaded then
        let u := unbind m st p
        (some u.1, .offStyled :: u.2)
      else (some m, [])

/-- The data branch of `componentWillReceiveProps`: on a changed payload
reference, call `setData` on the result of `getSource` with no existence
check — when the source is absent the call is not well-defined and the
embedding takes the error branch (`none`). -/
def dataCalls (m : MapState) (st : LayerState) (prev next : Props) :
    Option (LayerState × List MapCall) :=
  if next.data ≠ prev.data then
    if st.id ∈ m.sources then
      some ({ st with source := { options := next.sourceOptions, data := next.data } },
        [.setData st.id next.data])
    else none
  else some (st, [])

/-- Whether the generic layer-options filter changed: both the previous
and next props must supply `layerOptions`, and the filters must be
deep-unequal (`layerFilterChanged`). -/
def filterChangedB (prev next : Props) : Bool :=
  match prev.layerOptions, next.layerOptions with
  | some plo, some nlo => decide (plo.filter ≠ nlo.filter)
  | _, _ => false

/-- FilterExpr call for one layer id (the `setFilter` branch of the loop). -/
def filterCalls (prev next : Props) (lid : String) : List MapCall :=
  match prev.layerOptions, next.layerOptions with
  | some plo, some nlo =>
      if plo.filter ≠ nlo.filter then
        [.setFilter lid (nlo.filter.getD [])]
      else []
  | _, _ => []

/-- Paint updates for one layer id: skip when deep-equal, otherwise one
`setPaintProperty` per entry of the diff of previous against next. -/
def paintCalls (prevO nextO : Option Obj) (lid : String) : List MapCall :=
  if isEqualOptObj nextO prevO then []
  else (diff (prevO.getD []) (nextO.getD [])).map
    (fun kv => .setPaintProperty lid kv.1 kv.2)

/-- Layout updates for one layer id, same shape as the paint updates. -/
def layoutCalls (prevO nextO : Option Obj) (lid : String) : List MapCall :=
  if isEqualOptObj nextO prevO then []
  else (diff (prevO.getD []) (nextO.getD [])).map
    (fun kv => .setLayoutProperty lid kv.1 kv.2)

/-- Handler rebinding for one layer id: when the reference changed,
unsubscribe the old handler (if any) then subscribe the new (if any). -/
def handlerCalls (prev next : Props) (t : LayerType) (lid : String) :
    List MapCall :=
  forEvents (fun e =>
    if next.handler t e ≠ prev.handler t e then
      (prev.handler t e).toList.map (fun h => .off e lid h) ++
        (next.handler t e).toList.map (fun h => .on e lid h)
    else [])

/-- Move call for one layer id when the `before` anchor changed. -/
def moveCalls (prev next : Props) (lid : String) : List MapCall :=
  if prev.before ≠ next.before then [.moveLayer lid next.before] else []

/-- The `types.forEach` loop body of `componentWillReceiveProps`. -/
def updateForType (st : LayerState) (prev next : Props) (t : LayerType) :
    List MapCall :=
  let lid := buildLayerId st.id t
  filterCalls prev next lid ++
    paintCalls (prev.paint t) (next.paint t) lid ++
    layoutCalls (prev.layout t) (next.layout t) lid ++
    handlerCalls prev next t lid ++
    moveCalls prev next lid

/-- The whole per-type update loop, types in array order. -/
def updateCalls (st : LayerState) (prev next : Props) : List MapCall :=
  updateForType st prev next .symbol ++
    updateForType st prev next .line ++
    updateForType st prev next .fill ++
    updateForType st prev next .fillExtrusion ++
    updateForType st prev next .circle

/-- `componentWillReceiveProps`: the data branch followed by the
per-type update loop. -/
def componentWillReceiveProps (m : MapState) (st : LayerState)
    (prev next : Props) : Option (LayerState × List MapCall) :=
  match dataCalls m st prev next with
  | none => none
  | some r => some (r.1, r.2 ++ updateCalls st prev next)

/-- Initial instance state built from the props (the generated part of
the id is a parameter standing for `generateID()`). -/
def initialState (p : Props) (g : String) : LayerState :=
  { id := p.id.getD ("geojson-" ++ g),
    source := { options := p.sourceOptions, data := p.data },
    layerIds := [] }

/-! ## Concrete fixtures used by witnesses and counterexamples -/

/-- Baseline props: caller-supplied id "g", payload token 0, everything
else absent. -/
def pBase : Props :=
  { id := some "g", data := 0, layerOptions := none, sourceOptions := none,
    before := none, paint := fun _ => none, layout := fun _ => none,
    handler := fun _ _ => none }

/-- Baseline instance state for `pBase` before mount. -/
def stBase : LayerState :=
  { id := "g", source := { options := none, data := 0 }, layerIds := [] }

/-- An external map right after a wholesale style replacement: style
loaded, no sources, no layers. -/
def styleWipe : MapState :=
  { sources := [], layers := [], styleLoaded := true }

/-! ## General lemmas -/

theorem string_append_cancel_left {s a b : String} (h : s ++ a = s ++ b) :
    a = b := by
  apply String.ext
  have hd : (s ++ a).data = (s ++ b).data := congrArg String.data h
  rw [String.data_append, String.data_append] at hd
  exact List.append_cancel_left hd

theorem buildLayerId_ne (i : String) {t u : LayerType}
    (h : t.name ≠ u.name) : buildLayerId i t ≠ buildLayerId i u := by
  intro he
  exact h (string_append_cancel_left he)

theorem mem_forEvents {f : MouseEvt → List MapCall} {c : MapCall} :
    c ∈ forEvents f ↔ ∃ e, c ∈ f e := by
  constructor
  · intro h
    simp only [forEvents, events, List.foldr_cons, List.foldr_nil,
      List.append_nil, List.mem_append] at h
    rcases h with h | h | h | h | h | h
    exacts [⟨_, h⟩, ⟨_, h⟩, ⟨_, h⟩, ⟨_, h⟩, ⟨_, h⟩, ⟨_, h⟩]
  · rintro ⟨e, he⟩
    simp only [forEvents, events, List.foldr_cons, List.foldr_nil,
      List.append_nil, List.mem_append]
    cases e
    · exact Or.inl he
    · exact Or.inr (Or.inl he)
    · exact Or.inr (Or.inr (Or.inl he))
    · exact Or.inr (Or.inr (Or.inr (Or.inl he)))
    · exact Or.inr (Or.inr (Or.inr (Or.inr (Or.inl he))))
    · exact Or.inr (Or.inr (Or.inr (Or.inr (Or.inr he))))

/-! ## Claim C6: unmount with no map or no style is a no-op -/

/-- Claim C6: calling unmount when the external map is absent or its
style is unloaded is a no-op — it issues no call and changes nothing. -/
theorem c6_unmount_noop (mo : Option MapState) (st : LayerState) (p : Props)
    (h : mo = none ∨ ∃ m, mo = some m ∧ m.styleLoaded = false) :
    componentWillUnmount mo st p = (mo, []) := by
  rcases h with h | ⟨m, hm, hs⟩
  · subst h; rfl
  · subst hm; simp [componentWillUnmount, hs]

/-- Witness for C6 at a concrete destroyed map. -/
theorem c6_witness : componentWillUnmount none stBase pBase = (none, []) :=
  c6_unmount_noop none stBase pBase (Or.inl rfl)

/-! ## Claim C8: styledata notification rebinds iff the source is gone -/

/-- Claim C8: on a styledata notification, nothing happens when the
bound source is still present; if and only if it is absent, the binding
unbinds, re-initializes, and requests a re-render. -/
theorem c8_styledata_rebind (m : MapState) (st : LayerState) (p : Props) :
    (st.id ∈ m.sources → onStyleDataChange m st p = (m, st, [])) ∧
    (st.id ∉ m.sources →
      onStyleDataChange m st p =
        ((initializeBinding (unbind m st p).1 st p).1,
         (initializeBinding (unbind m st p).1 st p).2.1,
         (unbind m st p).2 ++ (initializeBinding (unbind m st p).1 st p).2.2
           ++ [.forceUpdate])) ∧
    (MapCall.forceUpdate ∈ (onStyleDataChange m st p).2.2 ↔
      st.id ∉ m.sources) := by
  by_cases h : st.id ∈ m.sources <;>
    simp [onStyleDataChange, h]

/-- Witness for C8: with the source still present (even with every layer
missing), the notification issues no call and changes no state. -/
theorem c8_witness :
    onStyleDataChange { sources := ["g"], layers := [], styleLoaded := true }
      stBase pBase =
      ({ sources := ["g"], layers := [], styleLoaded := true }, stBase, []) :=
  (c8_styledata_rebind _ stBase pBase).1 (by decide)

/-! ## Claim C10: the data branch calls setData with no existence check -/

/-- Claim C10: when the payload reference changed, `setData` is invoked
on the result of `getSource` with no existence check; with the source
absent the embedding takes the guarded error branch (`none`), and with
it present the update succeeds and pushes the payload. -/
theorem c10_setdata_guard (m : MapState) (st : LayerState) (prev next : Props)
    (hne : next.data ≠ prev.data) :
    (st.id ∉ m.sources → componentWillReceiveProps m st prev next = none) ∧
    (st.id ∈ m.sources →
      componentWillReceiveProps m st prev next =
        some ({ st with
                  source := { options := next.sourceOptions, data := next.data } },
          .setData st.id next.data :: updateCalls st prev next)) := by
  constructor <;> intro h <;>
    simp [componentWillReceiveProps, dataCalls, hne, h]

/-- Witness for C10: a changed payload with the source absent takes the
error branch. -/
theorem c10_witness :
    componentWillReceiveProps styleWipe stBase pBase { pBase with data := 1 }
      = none :=
  (c10_setdata_guard styleWipe stBase pBase { pBase with data := 1 }
    (by decide)).1 (by decide)

/-! ## Claim C9: derived layer ids and their stability across updates -/

/-- Claim C9: the derived layer id is always the binding id, a hyphen,
and the type name; and no property update changes the binding id or the
recorded layer ids. -/
theorem c9_layer_ids_stable (i : String) (t : LayerType) (m : MapState)
    (st : LayerState) (prev next : Props) (st' : LayerState)
    (tr : List MapCall)
    (h : componentWillReceiveProps m st prev next = some (st', tr)) :
    buildLayerId i t = i ++ "-" ++ t.name ∧
    st'.id = st.id ∧ st'.layerIds = st.layerIds := by
  refine ⟨rfl, ?_⟩
  unfold componentWillReceiveProps dataCalls at h
  by_cases hd : next.data ≠ prev.data
  · by_cases hs : st.id ∈ m.sources
    · simp [hd, hs] at h
      obtain ⟨h1, -⟩ := h
      subst h1
      exact ⟨rfl, rfl⟩
    · simp [hd, hs] at h
  · simp [hd] at h
    obtain ⟨h1, -⟩ := h
    subst h1
    exact ⟨rfl, rfl⟩

/-- Witness for C9 at a concrete no-change update. -/
theorem c9_witness :
    buildLayerId "g" .fillExtrusion = "g-fill-extrusion" ∧
    stBase.id = stBase.id ∧ stBase.layerIds = stBase.layerIds := by
  have h := c9_layer_ids_stable "g" .fillExtrusion styleWipe stBase pBase pBase
    stBase (updateCalls stBase pBase pBase) rfl
  exact ⟨h.1, h.2⟩

/-! ## Shape lemmas: which calls each update piece can emit -/

theorem filterCalls_shape {prev next : Props} {lid : String} {c : MapCall}
    (h : c ∈ filterCalls prev next lid) :
    ∃ f, c = .setFilter lid f := by
  unfold filterCalls at h
  split at h
  · split at h
    · simp at h
      exact ⟨_, h⟩
    · simp at h
  · simp at h

theorem paintCalls_shape {pO nO : Option Obj} {lid : String} {c : MapCall}
    (h : c ∈ paintCalls pO nO lid) :
    ∃ k v, c = .setPaintProperty lid k v := by
  unfold paintCalls at h
  split at h
  · simp at h
  · rcases List.mem_map.1 h with ⟨kv, -, rfl⟩
    exact ⟨kv.1, kv.2, rfl⟩

theorem layoutCalls_shape {pO nO : Option Obj} {lid : String} {c : MapCall}
    (h : c ∈ layoutCalls pO nO lid) :
    ∃ k v, c = .setLayoutProperty lid k v := by
  unfold layoutCalls at h
  split at h
  · simp at h
  · rcases List.mem_map.1 h with ⟨kv, -, rfl⟩
    exact ⟨kv.1, kv.2, rfl⟩

theorem handlerCalls_shape {prev next : Props} {t : LayerType} {lid : String}
    {c : MapCall} (h : c ∈ handlerCalls prev next t lid) :
    (∃ e hh, c = .off e lid hh) ∨ (∃ e hh, c = .on e lid hh) := by
  rcases mem_forEvents.1 h with ⟨e, he⟩
  split at he
  · rcases List.mem_append.1 he with h1 | h1 <;>
      rcases List.mem_map.1 h1 with ⟨hh, -, rfl⟩
    · exact Or.inl ⟨e, hh, rfl⟩
    · exact Or.inr ⟨e, hh, rfl⟩
  · simp at he

theorem moveCalls_shape {prev next : Props} {lid : String} {c : MapCall}
    (h : c ∈ moveCalls prev next lid) :
    c = .moveLayer lid next.before := by
  unfold moveCalls at h
  split at h
  · simpa using h
  · simp at h

/-- Every call emitted by the per-type update loop body is a non-
registration call, and its paint/filter calls target the derived id of
that type. -/
theorem updateForType_calls {st : LayerState} {prev next : Props}
    {t : LayerType} {c : MapCall}
    (h : c ∈ updateForType st prev next t) :
    isRegCall c = false ∧
    (∀ lid k v, c = .setPaintProperty lid k v →
      lid = buildLayerId st.id t) ∧
    (∀ lid f, c = .setFilter lid f → lid = buildLayerId st.id t) := by
  unfold updateForType at h
  simp only [List.mem_append] at h
  rcases h with ((((h | h) | h) | h) | h)
  · rcases filterCalls_shape h with ⟨f, rfl⟩
    refine ⟨rfl, ?_, ?_⟩
    · intro lid k v hc; cases hc
    · intro lid f2 hc; cases hc; rfl
  · rcases paintCalls_shape h with ⟨k, v, rfl⟩
    refine ⟨rfl, ?_, ?_⟩
    · intro lid k2 v2 hc; cases hc; rfl
    · intro lid f hc; cases hc
  · rcases layoutCalls_shape h with ⟨k, v, rfl⟩
    refine ⟨rfl, ?_, ?_⟩
    · intro lid k2 v2 hc; cases hc
    · intro lid f hc; cases hc
  · rcases handlerCalls_shape h with ⟨e, hh, rfl⟩ | ⟨e, hh, rfl⟩ <;>
      (refine ⟨rfl, ?_, ?_⟩
       · intro lid k v hc; cases hc
       · intro lid f hc; cases hc)
  · rw [moveCalls_shape h]
    refine ⟨rfl, ?_, ?_⟩
    · intro lid k v hc; cases hc
    · intro lid f hc; cases hc

theorem updateCalls_not_reg {st : LayerState} {prev next : Props}
    {c : MapCall} (h : c ∈ updateCalls st prev next) :
    isRegCall c = false := by
  unfold updateCalls at h
  simp only [List.mem_append] at h
  rcases h with ((((h | h) | h) | h) | h) <;>
    exact (updateForType_calls h).1

/-- A non-registration call leaves the map's registrations unchanged. -/
theorem applyCall_of_not_reg {m : MapState} {c : MapCall}
    (h : isRegCall c = false) : applyCall m c = m := by
  cases c <;> first
    | rfl
    | (exact absurd h (by simp [isRegCall]))

theorem foldl_applyCall_of_not_reg {m : MapState} {tr : List MapCall}
    (h : ∀ c ∈ tr, isRegCall c = false) :
    List.foldl applyCall m tr = m := by
  induction tr with
  | nil => rfl
  | cons c rest ih =>
      rw [List.foldl_cons, applyCall_of_not_reg (h c (List.mem_cons_self c rest))]
      exact ih (fun x hx => h x (List.mem_cons_of_mem c hx))

/-! ## Claim C5: data replacement updates the source in place -/

/-- Claim C5: when the payload reference changed, the update pushes the
new payload via `setData` (the first issued call) and performs no
addSource, removeSource, addLayer or removeLayer; the map's registered
source and layers are unchanged by the issued calls. -/
theorem c5_setdata_in_place (m : MapState) (st : LayerState)
    (prev next : Props) (st' : LayerState) (tr : List MapCall)
    (hne : next.data ≠ prev.data)
    (h : componentWillReceiveProps m st prev next = some (st', tr)) :
    tr.head? = some (.setData st.id next.data) ∧
    (∀ c ∈ tr, isRegCall c = false) ∧
    List.foldl applyCall m tr = m := by
  unfold componentWillReceiveProps dataCalls at h
  by_cases hs : st.id ∈ m.sources
  · simp [hne, hs] at h
    obtain ⟨-, h2⟩ := h
    have htr : tr = .setData st.id next.data :: updateCalls st prev next :=
      h2.symm
    subst htr
    refine ⟨rfl, ?_, ?_⟩
    · intro c hc
      rcases List.mem_cons.1 hc with rfl | hc
      · rfl
      · exact updateCalls_not_reg hc
    · apply foldl_applyCall_of_not_reg
      intro c hc
      rcases List.mem_cons.1 hc with rfl | hc
      · rfl
      · exact updateCalls_not_reg hc
  · simp [hne, hs] at h

/-- Witness for C5 at a concrete payload replacement. -/
theorem c5_witness :
    ((MapCall.setData "g" 1 :: updateCalls stBase pBase { pBase with data := 1 }).head?
        = some (.setData "g" 1)) ∧
    (∀ c ∈ (MapCall.setData "g" 1 :: updateCalls stBase pBase { pBase with data := 1 }),
        isRegCall c = false) ∧
    List.foldl applyCall { sources := ["g"], layers := [], styleLoaded := true }
        (MapCall.setData "g" 1 :: updateCalls stBase pBase { pBase with data := 1 })
      = { sources := ["g"], layers := [], styleLoaded := true } :=
  c5_setdata_in_place { sources := ["g"], layers := [], styleLoaded := true }
    stBase pBase { pBase with data := 1 }
    { stBase with source := { options := none, data := 1 } }
    (MapCall.setData "g" 1 :: updateCalls stBase pBase { pBase with data := 1 })
    (by decide) rfl

/-! ## Claim C2: initial layout defaults at mount -/

/-- The layout field carried by the generic layer options, if any. -/
def layerOptionsLayout (p : Props) : Option Obj :=
  match p.layerOptions with
  | none => none
  | some o => o.layout

/-- Props where an explicit fill layout is supplied but the generic
layer options also carry a layout, which the spread overrides. -/
def p2cex : Props :=
  { pBase with
    layout := fun t =>
      match t with
      | .fill => some [("visibility", "visible")]
      | _ => none,
    layerOptions :=
      some { filter := none, paint := none,
             layout := some [("visibility", "none")] } }

/-- Counterexample to C2 as stated: an explicit fill layout
(visibility "visible") is supplied, yet the layer is created with the
layout carried by `layerOptions` (visibility "none"), because
`...layerOptions` is spread last over the layer descriptor. -/
theorem c2_counterexample :
    p2cex.layout .fill = some [("visibility", "visible")] ∧
    (createLayer styleWipe stBase p2cex .fill).2.2.head? =
      some (.addLayer (createLayerDesc "g" p2cex .fill) none) ∧
    (createLayerDesc "g" p2cex .fill).layout = [("visibility", "none")] ∧
    (createLayerDesc "g" p2cex .fill).layout ≠ [("visibility", "visible")] :=
  ⟨rfl, rfl, rfl, by decide⟩

/-- Claim C2 (amended): provided the generic layerOptions carries no
layout of its own, a layer is created at mount with the explicitly
supplied per-type layout unchanged; with no explicit layout it gets
visibility "visible" when the per-type paint prop is a non-empty object
and visibility "none" when the paint prop is absent or empty. -/
theorem c2_layout_default (m : MapState) (st : LayerState) (p : Props)
    (t : LayerType) (hlo : layerOptionsLayout p = none) :
    (createLayer m st p t).2.2.head? =
      some (.addLayer (createLayerDesc st.id p t) p.before) ∧
    (∀ L, p.layout t = some L → (createLayerDesc st.id p t).layout = L) ∧
    (p.layout t = none →
      (createLayerDesc st.id p t).layout =
        [("visibility",
          if ((p.paint t).getD []).isEmpty then "none" else "visible")]) := by
  have hdesc : (createLayerDesc st.id p t).layout =
      (p.layout t).getD
        [("visibility",
          if ((p.paint t).getD []).isEmpty then "none" else "visible")] := by
    unfold createLayerDesc mergeLayerOptions layerOptionsLayout at *
    cases hP : p.layerOptions with
    | none => simp [hP]
    | some o =>
        simp only [hP] at hlo ⊢
        simp [hlo]
  refine ⟨rfl, ?_, ?_⟩
  · intro L hL
    rw [hdesc, hL]
    rfl
  · intro hL
    rw [hdesc, hL]
    rfl

/-- Witness for C2 at concrete props with no explicit line layout and an
empty (absent) line paint: the created layout is visibility "none". -/
theorem c2_witness :
    (createLayerDesc "g" pBase .line).layout = [("visibility", "none")] := by
  have h := (c2_layout_default styleWipe stBase pBase .line rfl).2.2 rfl
  simpa using h

/-! ## Claim C7: order of teardown operations in unmount -/

/-- Props with a single registered handler: line click, token 7. -/
def p7 : Props :=
  { pBase with
    handler := fun t e =>
      match t, e with
      | .line, .click => some 7
      | _, _ => none }

/-- Instance state holding the line layer id. -/
def st7 : LayerState :=
  { id := "g", source := { options := none, data := 0 },
    layerIds := ["g-line"] }

/-- Map with the source and the line layer still registered. -/
def m7 : MapState :=
  { sources := ["g"], layers := ["g-line"], styleLoaded := true }

/-- Counterexample to C7 as stated: in the actual unmount trace the
source removal (index 1) precedes the mouse-handler unsubscription
(index 2), whereas the claim puts every handler unsubscription before
the source removal. -/
theorem c7_counterexample :
    (componentWillUnmount (some m7) st7 p7).2 =
      [.offStyled, .removeSource "g", .off .click "g-line" 7,
       .removeLayer "g-line"] ∧
    ((componentWillUnmount (some m7) st7 p7).2)[1]? =
      some (.removeSource "g") ∧
    ((componentWillUnmount (some m7) st7 p7).2)[2]? =
      some (.off .click "g-line" 7) := by
  decide

/-- Claim C7 (amended): when unmount runs with the map and style
present, it removes the style-reset listener first, then removes the
source if it still exists, then unsubscribes every registered mouse
handler for every layer type, then removes every recorded layer id that
still exists. -/
theorem c7_unmount_order (m : MapState) (st : LayerState) (p : Props)
    (hs : m.styleLoaded = true) :
    componentWillUnmount (some m) st p =
      (some (unbind m st p).1, .offStyled :: (unbind m st p).2) ∧
    (unbind m st p).2 =
      (if st.id ∈ m.sources then [MapCall.removeSource st.id] else []) ++
        mouseOffs st p ++
        (removeLayers
          (if st.id ∈ m.sources
           then { m with sources := eraseAll m.sources st.id } else m)
          st.layerIds).2 := by
  constructor
  · simp [componentWillUnmount, hs]
  · unfold unbind
    by_cases h : st.id ∈ m.sources <;> simp [h]

/-- Witness for C7 at the concrete fixture. -/
theorem c7_witness :
    componentWillUnmount (some m7) st7 p7 =
      (some { sources := [], layers := [], styleLoaded := true },
       [.offStyled, .removeSource "g", .off .click "g-line" 7,
        .removeLayer "g-line"]) :=
  (c7_unmount_order m7 st7 p7 rfl).1.trans (by decide)

/-! ## Claim C3: layerIds and map registrations across rebinds -/

@[simp] theorem mergeLayerOptions_id (b : LayerDesc) (o : Option LayerOptions) :
    (mergeLayerOptions b o).id = b.id := by
  cases o <;> rfl

@[simp] theorem createLayerDesc_id (i : String) (p : Props) (t : LayerType) :
    (createLayerDesc i p t).id = buildLayerId i t := by
  simp [createLayerDesc]

/-- State effect of `initialize`: the source id is appended to the map's
sources, the five derived layer ids are appended to the map's layers and
to the recorded `layerIds` — without clearing what was there. -/
theorem initializeBinding_state (m : MapState) (st : LayerState) (p : Props) :
    (initializeBinding m st p).1 =
      { m with sources := m.sources ++ [st.id],
               layers := m.layers ++ fiveIds st.id } ∧
    (initializeBinding m st p).2.1 =
      { st with layerIds := st.layerIds ++ fiveIds st.id } := by
  constructor <;>
    simp [initializeBinding, createLayer, fiveIds]

theorem removeLayers_no_layers {m : MapState} (h : m.layers = []) :
    ∀ l, removeLayers m l = (m, []) := by
  intro l
  induction l with
  | nil => rfl
  | cons lid rest ih =>
      simp [removeLayers, h, ih]

/-- One styledata-triggered rebind from a wiped style: the map ends with
exactly the source and the five layers, while the recorded layerIds get
the five ids appended once more. -/
theorem rebind_step (st : LayerState) (p : Props) :
    (onStyleDataChange styleWipe st p).1 =
      { sources := [st.id], layers := fiveIds st.id, styleLoaded := true } ∧
    (onStyleDataChange styleWipe st p).2.1 =
      { st with layerIds := st.layerIds ++ fiveIds st.id } := by
  have hmem : st.id ∉ styleWipe.sources := by simp [styleWipe]
  have hrl : removeLayers styleWipe st.layerIds = (styleWipe, []) :=
    removeLayers_no_layers rfl st.layerIds
  have hu : (unbind styleWipe st p).1 = styleWipe := by
    simp [unbind, hmem, hrl]
  have hinit := initializeBinding_state styleWipe st p
  constructor
  · simp only [onStyleDataChange, if_neg hmem]
    rw [hu, hinit.1]
    simp [styleWipe]
  · simp only [onStyleDataChange, if_neg hmem]
    rw [hu, hinit.2]

/-- Map and instance state right after mounting on a freshly wiped map
(the parameter `g` stands for the generated id part). -/
def mountState (p : Props) (g : String) : MapState × LayerState :=
  ((componentWillMount styleWipe (initialState p g) p).1,
   (componentWillMount styleWipe (initialState p g) p).2.1)

/-- Map and instance state after mount followed by `n` wholesale style
wipes, each followed by the styledata notification. -/
def afterRebinds (p : Props) (g : String) : Nat → MapState × LayerState
  | 0 => mountState p g
  | n + 1 =>
      ((onStyleDataChange styleWipe (afterRebinds p g n).2 p).1,
       (onStyleDataChange styleWipe (afterRebinds p g n).2 p).2.1)

/-- Counterexample to C3 as stated: after one style-reset rebind the
`layerIds` sequence holds the derived symbol layer id twice, not exactly
once per active layer type (the rebind re-pushes all five ids without
clearing). -/
theorem c3_counterexample :
    ((afterRebinds pBase "X" 1).2.layerIds.count "g-symbol") = 2 := by
  decide

/-- Claim C3 (amended): after mount the recorded layerIds are exactly
the five derived ids, one per type; each styledata rebind appends the
five derived ids again without clearing, so after n rebinds layerIds is
n+1 concatenated copies of them — while the external map itself holds
exactly one source (the binding id) and exactly the five derived layers,
one per type, after mount and after every rebind. -/
theorem c3_rebind_invariant (p : Props) (g : String) (n : Nat) :
    (afterRebinds p g n).2.id = p.id.getD ("geojson-" ++ g) ∧
    (afterRebinds p g n).1.sources = [(afterRebinds p g n).2.id] ∧
    (afterRebinds p g n).1.layers = fiveIds (afterRebinds p g n).2.id ∧
    (afterRebinds p g n).2.layerIds =
      (List.replicate (n + 1) (fiveIds (afterRebinds p g n).2.id)).flatten := by
  induction n with
  | zero =>
      have hinit := initializeBinding_state styleWipe (initialState p g) p
      have h1 : (afterRebinds p g 0).1 = (initializeBinding styleWipe (initialState p g) p).1 := rfl
      have h2 : (afterRebinds p g 0).2 = (initializeBinding styleWipe (initialState p g) p).2.1 := rfl
      rw [h1, h2, hinit.1, hinit.2]
      simp [styleWipe, initialState]
  | succ n ih =>
      obtain ⟨hid, hsrc, hlay, hrec⟩ := ih
      have hstep := rebind_step (afterRebinds p g n).2 p
      have h1 : (afterRebinds p g (n + 1)).1 =
          (onStyleDataChange styleWipe (afterRebinds p g n).2 p).1 := rfl
      have h2 : (afterRebinds p g (n + 1)).2 =
          (onStyleDataChange styleWipe (afterRebinds p g n).2 p).2.1 := rfl
      rw [h1, h2, hstep.1, hstep.2]
      refine ⟨hid, rfl, rfl, ?_⟩
      show (afterRebinds p g n).2.layerIds ++ fiveIds (afterRebinds p g n).2.id =
        (List.replicate (n + 1 + 1) (fiveIds (afterRebinds p g n).2.id)).flatten
      rw [hrec, List.replicate_succ' (n + 1) (fiveIds (afterRebinds p g n).2.id)]
      simp

/-! ## Claim C4: filter propagation on updates -/

/-- Bool predicate: is this a `setFilter` call on the given layer id. -/
def isFilterOn (lid : String) : MapCall → Bool
  | .setFilter l _ => l == lid
  | _ => false

theorem LayerType.name_inj : ∀ {t u : LayerType}, t.name = u.name → t = u := by
  intro t u h
  cases t <;> cases u <;> first
    | rfl
    | exact absurd h (by decide)

theorem buildLayerId_eq_iff {i : String} {t u : LayerType} :
    buildLayerId i t = buildLayerId i u ↔ t = u :=
  ⟨fun h => LayerType.name_inj (string_append_cancel_left h),
   fun h => by rw [h]⟩

theorem countP_filterCalls_any (prev next : Props) (lid' lid : String) :
    (filterCalls prev next lid').countP (isFilterOn lid) =
      if lid' = lid then (if filterChangedB prev next then 1 else 0)
      else 0 := by
  unfold filterCalls filterChangedB
  cases prev.layerOptions <;> cases next.layerOptions <;>
    simp [isFilterOn, List.countP_cons] <;>
    split <;>
    simp [isFilterOn, List.countP_cons, beq_iff_eq] <;>
    split <;> simp_all

theorem countP_updateForType_filter (st : LayerState) (prev next : Props)
    (t : LayerType) (lid : String) :
    (updateForType st prev next t).countP (isFilterOn lid) =
      (filterCalls prev next (buildLayerId st.id t)).countP (isFilterOn lid)
    := by
  unfold updateForType
  rw [List.countP_append, List.countP_append, List.countP_append,
    List.countP_append]
  have hp : (paintCalls (prev.paint t) (next.paint t)
      (buildLayerId st.id t)).countP (isFilterOn lid) = 0 :=
    List.countP_eq_zero.2 (fun c hc => by
      rcases paintCalls_shape hc with ⟨k, v, rfl⟩
      simp [isFilterOn])
  have hl : (layoutCalls (prev.layout t) (next.layout t)
      (buildLayerId st.id t)).countP (isFilterOn lid) = 0 :=
    List.countP_eq_zero.2 (fun c hc => by
      rcases layoutCalls_shape hc with ⟨k, v, rfl⟩
      simp [isFilterOn])
  have hh : (handlerCalls prev next t
      (buildLayerId st.id t)).countP (isFilterOn lid) = 0 :=
    List.countP_eq_zero.2 (fun c hc => by
      rcases handlerCalls_shape hc with ⟨e, hh, rfl⟩ | ⟨e, hh, rfl⟩ <;>
        simp [isFilterOn])
  have hm : (moveCalls prev next
      (buildLayerId st.id t)).countP (isFilterOn lid) = 0 :=
    List.countP_eq_zero.2 (fun c hc => by
      rw [moveCalls_shape hc]
      simp [isFilterOn])
  rw [hp, hl, hh, hm]
  simp

theorem countP_updateCalls_filter (st : LayerState) (prev next : Props)
    (t : LayerType) :
    (updateCalls st prev next).countP (isFilterOn (buildLayerId st.id t)) =
      if filterChangedB prev next then 1 else 0 := by
  unfold updateCalls
  rw [List.countP_append, List.countP_append, List.countP_append,
    List.countP_append]
  rw [countP_updateForType_filter, countP_updateForType_filter,
    countP_updateForType_filter, countP_updateForType_filter,
    countP_updateForType_filter]
  rw [countP_filterCalls_any, countP_filterCalls_any, countP_filterCalls_any,
    countP_filterCalls_any, countP_filterCalls_any]
  simp only [buildLayerId_eq_iff]
  cases t <;> simp

theorem filterCalls_of_changed {prev next : Props} (lid : String)
    (h : filterChangedB prev next = true) :
    filterCalls prev next lid =
      [.setFilter lid ((next.layerOptions.bind LayerOptions.filter).getD [])]
    := by
  unfold filterChangedB at h
  unfold filterCalls
  cases hp : prev.layerOptions <;> cases hn : next.layerOptions <;>
    rw [hp, hn] at h <;> simp_all

theorem mem_updateCalls_of_mem_updateForType {st : LayerState}
    {prev next : Props} (t : LayerType) {c : MapCall}
    (h : c ∈ updateForType st prev next t) :
    c ∈ updateCalls st prev next := by
  unfold updateCalls
  cases t <;> simp [h]

theorem mem_updateForType_of_mem_filterCalls {st : LayerState}
    {prev next : Props} (t : LayerType) {c : MapCall}
    (h : c ∈ filterCalls prev next (buildLayerId st.id t)) :
    c ∈ updateForType st prev next t := by
  unfold updateForType
  simp only [List.mem_append]
  exact Or.inl (Or.inl (Or.inl (Or.inl h)))

/-- Props whose generic layer options carry a filter (the previous props
`pBase` carry no layerOptions at all). -/
def p4cex : Props :=
  { pBase with
    layerOptions := some { filter := some ["f"], paint := none, layout := none } }

/-- Counterexample to C4 as stated: the filter value changes from
undefined (no layerOptions) to ["f"] — deep-unequal — yet the update
issues no call at all, in particular no setFilter on any layer id,
because the code requires both the previous and next layerOptions to be
present before comparing filters. -/
theorem c4_counterexample :
    pBase.layerOptions = none ∧
    p4cex.layerOptions =
      some { filter := some ["f"], paint := none, layout := none } ∧
    componentWillReceiveProps styleWipe stBase pBase p4cex =
      some (stBase, []) := by
  refine ⟨rfl, rfl, ?_⟩
  decide

/-- Claim C4 (amended): when both the previous and next props supply a
layerOptions object and their filters are deep-unequal, the update
issues exactly one setFilter per derived layer id (all five), carrying
the new filter (empty filter when the new one is absent); when either
layerOptions is missing, or the filters are deep-equal, no setFilter is
issued on any derived layer id. -/
theorem c4_filter_update (m : MapState) (st : LayerState)
    (prev next : Props) (st' : LayerState) (tr : List MapCall)
    (h : componentWillReceiveProps m st prev next = some (st', tr))
    (t : LayerType) :
    tr.countP (isFilterOn (buildLayerId st.id t)) =
      (if filterChangedB prev next then 1 else 0) ∧
    (filterChangedB prev next = true →
      MapCall.setFilter (buildLayerId st.id t)
        ((next.layerOptions.bind LayerOptions.filter).getD []) ∈ tr) := by
  unfold componentWillReceiveProps dataCalls at h
  have key : ∀ c0 : List MapCall,
      (∀ c ∈ c0, isFilterOn (buildLayerId st.id t) c = false) →
      tr = c0 ++ updateCalls st prev next →
      tr.countP (isFilterOn (buildLayerId st.id t)) =
        (if filterChangedB prev next then 1 else 0) ∧
      (filterChangedB prev next = true →
        MapCall.setFilter (buildLayerId st.id t)
          ((next.layerOptions.bind LayerOptions.filter).getD []) ∈ tr) := by
    intro c0 hc0 htr
    subst htr
    constructor
    · rw [List.countP_append, List.countP_eq_zero.2 (by simpa using hc0),
        countP_updateCalls_filter]
      simp
    · intro hch
      refine List.mem_append_right _ ?_
      refine mem_updateCalls_of_mem_updateForType t
        (mem_updateForType_of_mem_filterCalls t ?_)
      rw [filterCalls_of_changed _ hch]
      simp
  by_cases hd : next.data ≠ prev.data
  · by_cases hs : st.id ∈ m.sources
    · simp [hd, hs] at h
      exact key [.setData st.id next.data] (by simp [isFilterOn]) h.2.symm
    · simp [hd, hs] at h
  · have hd' : next.data = prev.data := not_ne_iff.1 hd
    simp [hd'] at h
    exact key [] (by simp) (by simpa using h.2.symm)

/-- Witness for C4 at a concrete filter change with both layerOptions
present. -/
theorem c4_witness :
    ((MapCall.setData "g" 1 ::
        updateCalls stBase
          { pBase with
            layerOptions := some { filter := none, paint := none, layout := none } }
          { p4cex with data := 1 }).countP (isFilterOn "g-circle") = 1) ∧
    (MapCall.setFilter "g-circle" ["f"] ∈
      MapCall.setData "g" 1 ::
        updateCalls stBase
          { pBase with
            layerOptions := some { filter := none, paint := none, layout := none } }
          { p4cex with data := 1 }) := by
  have h := c4_filter_update
    { sources := ["g"], layers := [], styleLoaded := true } stBase
    { pBase with
      layerOptions := some { filter := none, paint := none, layout := none } }
    { p4cex with data := 1 }
    { stBase with source := { options := none, data := 1 } }
    (MapCall.setData "g" 1 ::
      updateCalls stBase
        { pBase with
          layerOptions := some { filter := none, paint := none, layout := none } }
        { p4cex with data := 1 })
    (by decide) .circle
  exact ⟨h.1.trans (by decide), by simpa using h.2 (by decide)⟩

/-! ## Claim C1: per-key paint updates -/

/-- Bool predicate: is this a `setPaintProperty` call on the given layer
id for the given key (any value). -/
def isPaintOn (lid : String) (k : Key) : MapCall → Bool
  | .setPaintProperty l k2 _ => l == lid && k2 == k
  | _ => false

/-- How many paint-property calls a key must receive per the code: one
exactly when the key is present in the next paint object with a value
absent from or different in the previous one, zero otherwise. -/
def changedCount (pO nO : Option Obj) (k : Key) : Nat :=
  match olookup (nO.getD []) k with
  | none => 0
  | some v => if olookup (pO.getD []) k = some v then 0 else 1

theorem olookup_eq_none {l : Obj} {k : Key} (h : k ∉ l.map Prod.fst) :
    olookup l k = none := by
  induction l with
  | nil => rfl
  | cons kv rest ih =>
      simp only [List.map_cons, List.mem_cons, not_or] at h
      have hne : kv.1 ≠ k := fun hh => h.1 hh.symm
      simp [olookup, hne, ih h.2]

theorem olookup_mem {l : Obj} {k : Key} {v : Val}
    (h : olookup l k = some v) : (k, v) ∈ l := by
  induction l with
  | nil => simp [olookup] at h
  | cons kv rest ih =>
      obtain ⟨a, b⟩ := kv
      simp only [olookup] at h
      by_cases he : a = k
      · rw [if_pos he] at h
        obtain rfl := he
        obtain rfl : b = v := Option.some.inj h
        exact List.mem_cons_self _ _
      · rw [if_neg he] at h
        exact List.mem_cons_of_mem _ (ih h)

theorem objSub_lookup {a b : Obj} (hs : objSub a b = true) {k : Key}
    {v : Val} (h : olookup a k = some v) : olookup b k = some v := by
  have := (List.all_eq_true.1 hs) (k, v) (olookup_mem h)
  simpa using this

theorem isEqualOptObj_lookup_some {nO pO : Option Obj}
    (he : isEqualOptObj nO pO = true) {k : Key} {v : Val}
    (h : olookup (nO.getD []) k = some v) :
    olookup (pO.getD []) k = some v := by
  cases nO with
  | none => simp [olookup] at h
  | some a =>
      cases pO with
      | none => simp [isEqualOptObj] at he
      | some b =>
          have hsub : objSub a b = true := by
            unfold isEqualOptObj isEqualObj at he
            rw [Bool.and_eq_true] at he
            exact he.1
          simp only [Option.getD_some] at h ⊢
          exact objSub_lookup hsub h

theorem countP_diff_key (p1 p2 : Obj) (k : Key)
    (hnd : (p2.map Prod.fst).Nodup) :
    (diff p1 p2).countP (fun kv => kv.1 == k) =
      match olookup p2 k with
      | none => 0
      | some v => if olookup p1 k = some v then 0 else 1 := by
  induction p2 with
  | nil => rfl
  | cons kv rest ih =>
      rw [List.map_cons, List.nodup_cons] at hnd
      obtain ⟨hk, hrest⟩ := hnd
      have hnone : olookup rest kv.1 = none := olookup_eq_none hk
      by_cases he : kv.1 = k
      · subst he
        by_cases hp : olookup p1 kv.1 = some kv.2
        · rw [diff, if_pos hp, ih hrest]
          simp [olookup, hnone, hp]
        · rw [diff, if_neg hp, List.countP_cons, ih hrest]
          simp [olookup, hnone, hp]
      · by_cases hp : olookup p1 kv.1 = some kv.2
        · rw [diff, if_pos hp, ih hrest]
          simp [olookup, he]
        · rw [diff, if_neg hp, List.countP_cons, ih hrest]
          simp [olookup, he]

theorem countP_paintCalls_other (pO nO : Option Obj) {lid' lid : String}
    (k : Key) (hne : lid' ≠ lid) :
    (paintCalls pO nO lid').countP (isPaintOn lid k) = 0 := by
  apply List.countP_eq_zero.2
  intro c hc
  rcases paintCalls_shape hc with ⟨k2, v2, rfl⟩
  simp [isPaintOn, hne]

theorem countP_paintCalls_self (pO nO : Option Obj) (lid : String) (k : Key)
    (hnd : ((nO.getD []).map Prod.fst).Nodup) :
    (paintCalls pO nO lid).countP (isPaintOn lid k) =
      changedCount pO nO k := by
  unfold paintCalls
  split
  case isTrue he =>
    have hz : changedCount pO nO k = 0 := by
      unfold changedCount
      cases ho : olookup (nO.getD []) k with
      | none => rfl
      | some v => simp [isEqualOptObj_lookup_some he ho]
    simp [hz]
  case isFalse he =>
    rw [List.countP_map]
    have hp : ((isPaintOn lid k) ∘
        (fun kv : Key × Val => MapCall.setPaintProperty lid kv.1 kv.2)) =
        fun kv : Key × Val => kv.1 == k := by
      funext kv
      simp [isPaintOn, Function.comp]
    rw [hp, countP_diff_key (pO.getD []) (nO.getD []) k hnd]
    rfl

theorem countP_updateForType_paint (st : LayerState) (prev next : Props)
    (t : LayerType) (lid : String) (k : Key) :
    (updateForType st prev next t).countP (isPaintOn lid k) =
      (paintCalls (prev.paint t) (next.paint t)
        (buildLayerId st.id t)).countP (isPaintOn lid k) := by
  unfold updateForType
  rw [List.countP_append, List.countP_append, List.countP_append,
    List.countP_append]
  have hf : (filterCalls prev next
      (buildLayerId st.id t)).countP (isPaintOn lid k) = 0 :=
    List.countP_eq_zero.2 (fun c hc => by
      rcases filterCalls_shape hc with ⟨f, rfl⟩
      simp [isPaintOn])
  have hl : (layoutCalls (prev.layout t) (next.layout t)
      (buildLayerId st.id t)).countP (isPaintOn lid k) = 0 :=
    List.countP_eq_zero.2 (fun c hc => by
      rcases layoutCalls_shape hc with ⟨k2, v2, rfl⟩
      simp [isPaintOn])
  have hh : (handlerCalls prev next t
      (buildLayerId st.id t)).countP (isPaintOn lid k) = 0 :=
    List.countP_eq_zero.2 (fun c hc => by
      rcases handlerCalls_shape hc with ⟨e, hh, rfl⟩ | ⟨e, hh, rfl⟩ <;>
        simp [isPaintOn])
  have hm : (moveCalls prev next
      (buildLayerId st.id t)).countP (isPaintOn lid k) = 0 :=
    List.countP_eq_zero.2 (fun c hc => by
      rw [moveCalls_shape hc]
      simp [isPaintOn])
  rw [hf, hl, hh, hm]
  simp

theorem countP_updateCalls_paint (st : LayerState) (prev next : Props)
    (t : LayerType) (k : Key)
    (hnd : (((next.paint t).getD []).map Prod.fst).Nodup) :
    (updateCalls st prev next).countP (isPaintOn (buildLayerId st.id t) k) =
      changedCount (prev.paint t) (next.paint t) k := by
  unfold updateCalls
  rw [List.countP_append, List.countP_append, List.countP_append,
    List.countP_append]
  rw [countP_updateForType_paint, countP_updateForType_paint,
    countP_updateForType_paint, countP_updateForType_paint,
    countP_updateForType_paint]
  cases t
  case symbol =>
    rw [countP_paintCalls_self _ _ _ _ hnd,
      countP_paintCalls_other _ _ _ (buildLayerId_ne st.id (by decide)),
      countP_paintCalls_other _ _ _ (buildLayerId_ne st.id (by decide)),
      countP_paintCalls_other _ _ _ (buildLayerId_ne st.id (by decide)),
      countP_paintCalls_other _ _ _ (buildLayerId_ne st.id (by decide))]
    omega
  case line =>
    rw [countP_paintCalls_self _ _ _ _ hnd,
      countP_paintCalls_other _ _ _ (buildLayerId_ne st.id (by decide)),
      countP_paintCalls_other _ _ _ (buildLayerId_ne st.id (by decide)),
      countP_paintCalls_other _ _ _ (buildLayerId_ne st.id (by decide)),
      countP_paintCalls_other _ _ _ (buildLayerId_ne st.id (by decide))]
    omega
  case fill =>
    rw [countP_paintCalls_self _ _ _ _ hnd,
      countP_paintCalls_other _ _ _ (buildLayerId_ne st.id (by decide)),
      countP_paintCalls_other _ _ _ (buildLayerId_ne st.id (by decide)),
      countP_paintCalls_other _ _ _ (buildLayerId_ne st.id (by decide)),
      countP_paintCalls_other _ _ _ (buildLayerId_ne st.id (by decide))]
    omega
  case fillExtrusion =>
    rw [countP_paintCalls_self _ _ _ _ hnd,
      countP_paintCalls_other _ _ _ (buildLayerId_ne st.id (by decide)),
      countP_paintCalls_other _ _ _ (buildLayerId_ne st.id (by decide)),
      countP_paintCalls_other _ _ _ (buildLayerId_ne st.id (by decide)),
      countP_paintCalls_other _ _ _ (buildLayerId_ne st.id (by decide))]
    omega
  case circle =>
    rw [countP_paintCalls_self _ _ _ _ hnd,
      countP_paintCalls_other _ _ _ (buildLayerId_ne st.id (by decide)),
      countP_paintCalls_other _ _ _ (buildLayerId_ne st.id (by decide)),
      countP_paintCalls_other _ _ _ (buildLayerId_ne st.id (by decide)),
      countP_paintCalls_other _ _ _ (buildLayerId_ne st.id (by decide))]
    omega

/-- Claim C1: for previous paint object P1 and next paint object P2 of a
layer type, a property update issues exactly one setPaintProperty call
on that layer's derived id for each key present in P2 but absent from or
different in P1 (`changedCount` is 1 there), and none for keys whose
values are unchanged or keys absent from P2 (`changedCount` is 0). -/
theorem c1_paint_update_per_key (m : MapState) (st : LayerState)
    (prev next : Props) (t : LayerType) (st' : LayerState)
    (tr : List MapCall)
    (h : componentWillReceiveProps m st prev next = some (st', tr))
    (hnd : (((next.paint t).getD []).map Prod.fst).Nodup) (k : Key) :
    tr.countP (isPaintOn (buildLayerId st.id t) k) =
      changedCount (prev.paint t) (next.paint t) k := by
  unfold componentWillReceiveProps dataCalls at h
  have key : ∀ c0 : List MapCall,
      (∀ c ∈ c0, isPaintOn (buildLayerId st.id t) k c = false) →
      tr = c0 ++ updateCalls st prev next →
      tr.countP (isPaintOn (buildLayerId st.id t) k) =
        changedCount (prev.paint t) (next.paint t) k := by
    intro c0 hc0 htr
    subst htr
    rw [List.countP_append, List.countP_eq_zero.2 (by simpa using hc0),
      countP_updateCalls_paint st prev next t k hnd]
    omega
  by_cases hd : next.data ≠ prev.data
  · by_cases hs : st.id ∈ m.sources
    · simp [hd, hs] at h
      exact key [.setData st.id next.data] (by simp [isPaintOn]) h.2.symm
    · simp [hd, hs] at h
  · have hd' : next.data = prev.data := not_ne_iff.1 hd
    simp [hd'] at h
    exact key [] (by simp) (by simpa using h.2.symm)

/-- Props with a previous line paint of two keys. -/
def p1prev : Props :=
  { pBase with
    paint := fun t =>
      match t with
      | .line => some [("a", "1"), ("b", "2")]
      | _ => none }

/-- Props with a next line paint: "a" unchanged, "b" changed, "c" new. -/
def p1next : Props :=
  { pBase with
    paint := fun t =>
      match t with
      | .line => some [("a", "1"), ("b", "3"), ("c", "4")]
      | _ => none }

/-- Witness for C1: an unchanged key gets zero calls, a changed key and
a newly added key get exactly one each. -/
theorem c1_witness :
    (updateCalls stBase p1prev p1next).countP (isPaintOn "g-line" "a") = 0 ∧
    (updateCalls stBase p1prev p1next).countP (isPaintOn "g-line" "b") = 1 ∧
    (updateCalls stBase p1prev p1next).countP (isPaintOn "g-line" "c") = 1 := by
  have ha := c1_paint_update_per_key styleWipe stBase p1prev p1next .line
    stBase (updateCalls stBase p1prev p1next) rfl (by decide) "a"
  have hb := c1_paint_update_per_key styleWipe stBase p1prev p1next .line
    stBase (updateCalls stBase p1prev p1next) rfl (by decide) "b"
  have hc := c1_paint_update_per_key styleWipe stBase p1prev p1next .line
    stBase (updateCalls stBase p1prev p1next) rfl (by decide) "c"
  exact ⟨ha.trans (by decide), hb.trans (by decide), hc.trans (by decide)⟩
